import Mathlib

/-!
Shallow embedding of the mini-twitter backend
(`app/models.py`, `app/schemas.py`, `app/main.py`).

The relational store is a record of four row lists; SQLAlchemy queries are
translated into list operations: `filter` for `.filter(...)`, a stable
`mergeSort` on `created_at` for `.order_by(...)`, `drop`/`take` for
`.offset(skip).limit(limit)`, and an explicit left-outer-join/group-by for the
like-count aggregation.  `DateTime` is modelled as a `Nat` tick count, row ids
as `Nat`.  FastAPI `Query` bounds (`ge`, `le`, `regex`, `min_length`) are
modelled as explicit checks that fail with a 422 error before the handler
body runs, and `HTTPException` as a status code plus detail string.
The authenticated identity (`get_current_user`) is passed in as a `Nat`.
-/

/-- Row of the `users` table (`app/models.py`, class `User`). -/
structure User where
  id : Nat
  username : String
  hashed_password : String
deriving DecidableEq, Repr

/-- Row of the `tweets` table (`app/models.py`, class `Tweet`);
`created_at` is the server-assigned commit timestamp. -/
structure Tweet where
  id : Nat
  content : String
  created_at : Nat
  owner_id : Nat
deriving DecidableEq, Repr

/-- Row of the `likes` table (`app/models.py`, class `Like`). -/
structure Like where
  id : Nat
  user_id : Nat
  tweet_id : Nat
deriving DecidableEq, Repr

/-- Row of the `follows` table (`app/models.py`, class `Follow`). -/
structure Follow where
  id : Nat
  follower_id : Nat
  followed_id : Nat
deriving DecidableEq, Repr

/-- The relational store: one list of rows per table. -/
structure DB where
  users : List User
  tweets : List Tweet
  likes : List Like
  follows : List Follow
deriving DecidableEq, Repr

/-- An `HTTPException` (status code and detail), also used for FastAPI 422
validation failures. -/
structure HTTPError where
  status_code : Nat
  detail : String
deriving DecidableEq, Repr

instance {ε α : Type} [DecidableEq ε] [DecidableEq α] : DecidableEq (Except ε α) :=
  fun a b =>
    match a, b with
    | .ok x, .ok y => if h : x = y then .isTrue (by rw [h]) else .isFalse (by simp [h])
    | .error x, .error y => if h : x = y then .isTrue (by rw [h]) else .isFalse (by simp [h])
    | .ok _, .error _ => .isFalse (by simp)
    | .error _, .ok _ => .isFalse (by simp)

/-- One row of the select list used by the four read queries
(`main.py:87-93`): tweet columns plus `COUNT(likes.id) AS likes_count`.
It is also the shape of `schemas.TweetResponse`. -/
structure TweetRow where
  id : Nat
  content : String
  owner_id : Nat
  created_at : Nat
  likes_count : Nat
deriving DecidableEq, Repr

/-- LEFT OUTER JOIN of one tweet against the likes table
(`.outerjoin(models.Like)`, joining on `Like.tweet_id == Tweet.id`): a tweet
with no matching like yields a single row with a NULL like. -/
def outerJoinRows (likes : List Like) (t : Tweet) : List (Tweet × Option Like) :=
  match likes.filter (fun l => l.tweet_id == t.id) with
  | [] => [(t, none)]
  | ls => ls.map (fun l => (t, some l))

/-- SQL `COUNT(likes.id)` over one group: counts the non-NULL like ids. -/
def countLikeIds (rows : List (Tweet × Option Like)) : Nat :=
  (rows.filter (fun r => r.2.isSome)).length

/-- One output row of the aggregate query grouped by tweet id
(`.group_by(models.Tweet.id)` with `func.count(models.Like.id)`). -/
def aggRow (likes : List Like) (t : Tweet) : TweetRow :=
  { id := t.id, content := t.content, owner_id := t.owner_id,
    created_at := t.created_at,
    likes_count := countLikeIds (outerJoinRows likes t) }

/-- Comparison for `order_by(Tweet.created_at.asc())`. -/
def ascCreated (a b : Tweet) : Prop := a.created_at ≤ b.created_at

/-- Comparison for `order_by(Tweet.created_at.desc())`. -/
def descCreated (a b : Tweet) : Prop := b.created_at ≤ a.created_at

instance : DecidableRel ascCreated := fun a b => Nat.decLe a.created_at b.created_at

instance : DecidableRel descCreated := fun a b => Nat.decLe b.created_at a.created_at

instance : IsTotal Tweet ascCreated := ⟨fun a b => Nat.le_total a.created_at b.created_at⟩

instance : IsTrans Tweet ascCreated := ⟨fun _ _ _ h h2 => Nat.le_trans h h2⟩

instance : IsTotal Tweet descCreated := ⟨fun a b => Nat.le_total b.created_at a.created_at⟩

instance : IsTrans Tweet descCreated := ⟨fun _ _ _ h h2 => Nat.le_trans h2 h⟩

/-- The `if sort == "asc" ... else ...` order_by dispatch shared by
`get_tweets`, `get_mytweets` and `get_feed` (`main.py:95-98`), realised as a
deterministic stable sort on `created_at`.  (The SQL `ORDER BY` itself
constrains only the `created_at` order; see `IsOrderedBy` below.) -/
def orderTweets (sort : String) (ts : List Tweet) : List Tweet :=
  if sort == "asc" then ts.insertionSort ascCreated else ts.insertionSort descCreated

/-- SQLAlchemy `.offset(skip).limit(limit)`. -/
def paginate {α : Type} (skip limit : Nat) (l : List α) : List α :=
  (l.drop skip).take limit

/-- FastAPI check for `skip: int = Query(0, ge=0)`. -/
def checkSkip (skip : Int) : Bool := 0 ≤ skip

/-- FastAPI check for `limit: int = Query(10, ge=1, le=100)`. -/
def checkLimit (limit : Int) : Bool := 1 ≤ limit && limit ≤ 100

/-- FastAPI check for `sort: str = Query("desc", regex="^(asc|desc)$")`. -/
def checkSort (sort : String) : Bool := sort == "asc" || sort == "desc"

/-- FastAPI check for `keyword: str = Query(..., min_length=1)`. -/
def checkKeyword (kw : String) : Bool := 1 ≤ kw.length

/-- The 422 response FastAPI produces when a `Query` bound is violated. -/
def validationError : HTTPError := ⟨422, "validation error"⟩

/-- GET `/tweets` (`main.py:80-101`, `get_tweets`): aggregate-join, order by
`created_at` per `sort`, then paginate. -/
def get_tweets (db : DB) (skip limit : Int) (sort : String) :
    Except HTTPError (List TweetRow) :=
  if ¬(checkSkip skip && checkLimit limit && checkSort sort) then
    .error validationError
  else
    .ok (paginate skip.toNat limit.toNat
      ((orderTweets sort db.tweets).map (aggRow db.likes)))

/-- GET `/tweets/me` (`main.py:104-128`, `get_mytweets`): same query with the
filter `Tweet.owner_id == current_user`. -/
def get_mytweets (db : DB) (uid : Nat) (skip limit : Int) (sort : String) :
    Except HTTPError (List TweetRow) :=
  if ¬(checkSkip skip && checkLimit limit && checkSort sort) then
    .error validationError
  else
    .ok (paginate skip.toNat limit.toNat
      ((orderTweets sort (db.tweets.filter (fun t => t.owner_id == uid))).map
        (aggRow db.likes)))

/-- Lower-casing of a string's characters, the semantics of SQL `ILIKE`
case-insensitivity. -/
def lowerChars (s : String) : List Char := s.data.map Char.toLower

/-- Boolean test that `pat` occurs at the head of `hay`. -/
def headMatches : List Char → List Char → Bool
  | [], _ => true
  | _ :: _, [] => false
  | a :: as, b :: bs => a == b && headMatches as bs

/-- Boolean substring test on character lists. -/
def containsSub (needle : List Char) : List Char → Bool
  | [] => needle.isEmpty
  | b :: bs => headMatches needle (b :: bs) || containsSub needle bs

/-- SQL `content ILIKE '%keyword%'` (`main.py:238`): case-insensitive
substring match. -/
def ilikeContains (content keyword : String) : Bool :=
  containsSub (lowerChars keyword) (lowerChars content)

/-- GET `/tweets/search` (`main.py:224-241`, `search_tweets`): filters on the
keyword and always orders `created_at.desc()`; the handler declares no `sort`
parameter. -/
def search_tweets (db : DB) (keyword : String) (skip limit : Int) :
    Except HTTPError (List TweetRow) :=
  if ¬(checkKeyword keyword && checkSkip skip && checkLimit limit) then
    .error validationError
  else
    .ok (paginate skip.toNat limit.toNat
      ((orderTweets "desc"
          (db.tweets.filter (fun t => ilikeContains t.content keyword))).map
        (aggRow db.likes)))

/-- The subquery of `get_feed` (`main.py:298-300`): the `followed_id` column
of the follow rows whose `follower_id` is the caller. -/
def following_ids (db : DB) (uid : Nat) : List Nat :=
  (db.follows.filter (fun f => f.follower_id == uid)).map (fun f => f.followed_id)

/-- GET `/feed` (`main.py:290-318`, `get_feed`): the shared aggregate query
filtered by `Tweet.owner_id.in_(following_ids)`. -/
def get_feed (db : DB) (uid : Nat) (skip limit : Int) (sort : String) :
    Except HTTPError (List TweetRow) :=
  if ¬(checkSkip skip && checkLimit limit && checkSort sort) then
    .error validationError
  else
    .ok (paginate skip.toNat limit.toNat
      ((orderTweets sort
          (db.tweets.filter (fun t => (following_ids db uid).contains t.owner_id))).map
        (aggRow db.likes)))

/-- Serialization of a freshly created `Tweet` through `schemas.TweetResponse`
(`schemas.py:37-45`): the ORM object carries no `likes_count` attribute, so
the field takes its declared default `0`. -/
def tweetResponseOfTweet (t : Tweet) : TweetRow :=
  { id := t.id, content := t.content, owner_id := t.owner_id,
    created_at := t.created_at, likes_count := 0 }

/-- Pydantic validation of `schemas.TweetCreate` (`schemas.py:28-32`): the
`content` field is a plain `str` with no length bound, so every string —
including the empty string — is accepted. -/
def tweetCreateOk (_content : String) : Bool := true

/-- POST `/tweets` (`main.py:67-77`, `create_tweet`): inserts a tweet owned by
the authenticated user.  `newId` and `now` are the server-assigned primary key
and `func.now()` commit timestamp. -/
def create_tweet (db : DB) (uid : Nat) (content : String) (newId now : Nat) :
    DB × Except HTTPError TweetRow :=
  if ¬ tweetCreateOk content then (db, .error validationError)
  else
    let t : Tweet := ⟨newId, content, now, uid⟩
    ({ db with tweets := db.tweets ++ [t] }, .ok (tweetResponseOfTweet t))

/-- PUT `/tweets/{tweet_id}` (`main.py:131-147`, `update_tweet`): 404 when no
row matches the id, 403 when the caller is not the owner, otherwise the
row's `content` column is replaced and the row committed. -/
def update_tweet (db : DB) (tweet_id : Nat) (uid : Nat) (content : String) :
    DB × Except HTTPError TweetRow :=
  match db.tweets.find? (fun t => t.id == tweet_id) with
  | none => (db, .error ⟨404, "Tweet not found"⟩)
  | some t =>
    if t.owner_id ≠ uid then
      (db, .error ⟨403, "Not authorized to update this tweet"⟩)
    else
      ({ db with tweets := db.tweets.map (fun x =>
          if x.id == tweet_id then { x with content := content } else x) },
       .ok (tweetResponseOfTweet { t with content := content }))

/-- Removal of the first row matching a predicate: the semantics of
`db.delete(row)` applied to the row returned by `.first()`. -/
def removeFirst {α : Type} (p : α → Bool) : List α → List α
  | [] => []
  | x :: xs => if p x then xs else x :: removeFirst p xs

/-- DELETE `/tweets/{tweet_id}` (`main.py:150-164`, `delete_tweet`): same
existence-then-ownership checks as `update_tweet`, then deletes the row. -/
def delete_tweet (db : DB) (tweet_id : Nat) (uid : Nat) :
    DB × Except HTTPError Unit :=
  match db.tweets.find? (fun t => t.id == tweet_id) with
  | none => (db, .error ⟨404, "Tweet not found"⟩)
  | some t =>
    if t.owner_id ≠ uid then
      (db, .error ⟨403, "Not authorized to delete this tweet"⟩)
    else
      ({ db with tweets := removeFirst (fun x => x.id == tweet_id) db.tweets },
       .ok ())

/-- POST `/like` (`main.py:168-189`, `like_tweet`): 404 when the tweet is
absent, 400 when the (user, tweet) like already exists, otherwise inserts. -/
def like_tweet (db : DB) (uid : Nat) (tweet_id : Nat) (newId : Nat) :
    DB × Except HTTPError Like :=
  match db.tweets.find? (fun t => t.id == tweet_id) with
  | none => (db, .error ⟨404, "Tweet not found"⟩)
  | some _ =>
    match db.likes.find? (fun l => l.user_id == uid && l.tweet_id == tweet_id) with
    | some _ => (db, .error ⟨400, "You already liked this tweet"⟩)
    | none =>
      let nl : Like := ⟨newId, uid, tweet_id⟩
      ({ db with likes := db.likes ++ [nl] }, .ok nl)

/-- DELETE `/like/{tweet_id}` (`main.py:192-208`, `unlike_tweet`): deletes the
caller's like row for the tweet, 404 when none exists. -/
def unlike_tweet (db : DB) (uid : Nat) (tweet_id : Nat) :
    DB × Except HTTPError String :=
  match db.likes.find? (fun l => l.user_id == uid && l.tweet_id == tweet_id) with
  | none => (db, .error ⟨404, "Like not found"⟩)
  | some _ =>
    ({ db with likes :=
        removeFirst (fun l => l.user_id == uid && l.tweet_id == tweet_id) db.likes },
     .ok "Unliked successfully")

/-- POST `/follow` (`main.py:244-268`, `follow_user`): rejects self-follow,
then a missing target account, then an already-present edge, and otherwise
inserts the follow edge. -/
def follow_user (db : DB) (uid : Nat) (followed_id : Nat) (newId : Nat) :
    DB × Except HTTPError Follow :=
  if uid = followed_id then
    (db, .error ⟨400, "You cannot follow yourself"⟩)
  else
    match db.users.find? (fun u => u.id == followed_id) with
    | none => (db, .error ⟨404, "User to follow not found"⟩)
    | some _ =>
      match db.follows.find? (fun f =>
          f.follower_id == uid && f.followed_id == followed_id) with
      | some _ => (db, .error ⟨400, "You are already following this user"⟩)
      | none =>
        let nf : Follow := ⟨newId, uid, followed_id⟩
        ({ db with follows := db.follows ++ [nf] }, .ok nf)

/-- DELETE `/follow/{user_id}` (`main.py:271-287`, `unfollow_user`): deletes
the caller's follow edge, 404 when it is absent. -/
def unfollow_user (db : DB) (uid : Nat) (followed_id : Nat) :
    DB × Except HTTPError String :=
  match db.follows.find? (fun f =>
      f.follower_id == uid && f.followed_id == followed_id) with
  | none => (db, .error ⟨404, "Follow relationship not found"⟩)
  | some _ =>
    let p := fun f : Follow => f.follower_id == uid && f.followed_id == followed_id
    ({ db with follows := removeFirst p db.follows }, .ok "Unfollowed successfully")

/-- Column projection used to evaluate a declared uniqueness constraint on
the `users` table. -/
def userCols (l : User) (c : String) : Option String :=
  if c == "id" then some (toString l.id)
  else if c == "username" then some l.username
  else none

/-- Column projection for the `likes` table. -/
def likeCols (l : Like) (c : String) : Option Nat :=
  if c == "id" then some l.id
  else if c == "user_id" then some l.user_id
  else if c == "tweet_id" then some l.tweet_id
  else none

/-- Column projection for the `follows` table. -/
def followCols (f : Follow) (c : String) : Option Nat :=
  if c == "id" then some f.id
  else if c == "follower_id" then some f.follower_id
  else if c == "followed_id" then some f.followed_id
  else none

/-- Uniqueness constraints declared on the `users` table (`models.py:8-13`):
the `id` primary key and `unique=True` on `username`. -/
def usersTableUnique : List (List String) := [["id"], ["username"]]

/-- Uniqueness constraints declared on the `likes` table (`models.py:29-37`):
only the `id` primary key — the class declares no `UniqueConstraint` over
`(user_id, tweet_id)`. -/
def likesTableUnique : List (List String) := [["id"]]

/-- Uniqueness constraints declared on the `follows` table
(`models.py:40-48`): the `id` primary key and
`UniqueConstraint('follower_id', 'followed_id')`. -/
def followsTableUnique : List (List String) := [["id"], ["follower_id", "followed_id"]]

/-- States of the `users` table that the declared schema admits: every
declared unique constraint's column tuple is duplicate-free. -/
def usersSchemaAccepts (rows : List User) : Prop :=
  ∀ cols ∈ usersTableUnique, (rows.map (fun r => cols.map (userCols r))).Nodup

/-- States of the `likes` table that the declared schema admits. -/
def likesSchemaAccepts (rows : List Like) : Prop :=
  ∀ cols ∈ likesTableUnique, (rows.map (fun r => cols.map (likeCols r))).Nodup

/-- States of the `follows` table that the declared schema admits. -/
def followsSchemaAccepts (rows : List Follow) : Prop :=
  ∀ cols ∈ followsTableUnique, (rows.map (fun r => cols.map (followCols r))).Nodup

instance (rows : List User) : Decidable (usersSchemaAccepts rows) := by
  unfold usersSchemaAccepts; infer_instance

instance (rows : List Like) : Decidable (likesSchemaAccepts rows) := by
  unfold likesSchemaAccepts; infer_instance

instance (rows : List Follow) : Decidable (followsSchemaAccepts rows) := by
  unfold followsSchemaAccepts; infer_instance

/-- The spec-side invariant: at most one Like per `(user_id, post_id)`. -/
def likePairUnique (rows : List Like) : Prop :=
  (rows.map (fun l => (l.user_id, l.tweet_id))).Nodup

/-- The spec-side invariant: at most one Follow per ordered
`(follower_id, followed_id)`. -/
def followPairUnique (rows : List Follow) : Prop :=
  (rows.map (fun f => (f.follower_id, f.followed_id))).Nodup

/-- The spec-side invariant: usernames are unique. -/
def usernameUnique (rows : List User) : Prop :=
  (rows.map (fun u => u.username)).Nodup

instance (rows : List Like) : Decidable (likePairUnique rows) := by
  unfold likePairUnique; infer_instance

instance (rows : List Follow) : Decidable (followPairUnique rows) := by
  unfold followPairUnique; infer_instance

instance (rows : List User) : Decidable (usernameUnique rows) := by
  unfold usernameUnique; infer_instance

/-- What the generated SQL `ORDER BY created_at ASC|DESC` (`main.py:95-98`)
pins down about the result: it is a permutation of the filtered rows that is
sorted on `created_at` alone.  Rows with equal `created_at` may come back in
any relative order — the query supplies no secondary sort key. -/
def IsOrderedBy (sort : String) (rows result : List Tweet) : Prop :=
  result.Perm rows ∧
    List.Sorted
      (fun a b : Tweet =>
        if sort == "asc" then a.created_at ≤ b.created_at
        else b.created_at ≤ a.created_at)
      result

/-- Raw query-string parameters of a list request, with the defaults the
handlers declare: `Query(0, ge=0)`, `Query(10, ge=1, le=100)`,
`Query("desc", regex="^(asc|desc)$")`. -/
structure ListParams where
  skip : Int := 0
  limit : Int := 10
  sort : String := "desc"
deriving DecidableEq, Repr

/-- GET `/tweets` at the HTTP boundary. -/
def get_tweets_http (db : DB) (p : ListParams) : Except HTTPError (List TweetRow) :=
  get_tweets db p.skip p.limit p.sort

/-- GET `/tweets/me` at the HTTP boundary. -/
def get_mytweets_http (db : DB) (uid : Nat) (p : ListParams) :
    Except HTTPError (List TweetRow) :=
  get_mytweets db uid p.skip p.limit p.sort

/-- GET `/feed` at the HTTP boundary. -/
def get_feed_http (db : DB) (uid : Nat) (p : ListParams) :
    Except HTTPError (List TweetRow) :=
  get_feed db uid p.skip p.limit p.sort

/-- GET `/tweets/search` at the HTTP boundary: the handler declares only
`keyword`, `skip` and `limit` (`main.py:226-228`), and FastAPI silently drops
query parameters a handler does not declare, so `p.sort` is ignored. -/
def search_tweets_http (db : DB) (keyword : String) (p : ListParams) :
    Except HTTPError (List TweetRow) :=
  search_tweets db keyword p.skip p.limit

/-- Filter of the personalized feed in the spec's words: posts whose owner is
in the set of accounts the viewer currently follows. -/
def followedPosts (db : DB) (uid : Nat) : List Tweet :=
  db.tweets.filter (fun t =>
    db.follows.any (fun f => f.follower_id == uid && f.followed_id == t.owner_id))

/-- Projection of a result row onto the non-aggregated tweet columns. -/
def projRow (r : TweetRow) : Nat × String × Nat × Nat :=
  (r.id, r.content, r.owner_id, r.created_at)

/-- Rows sorted on `created_at` in the direction named by `sort`. -/
def rowsSortedBy (sort : String) (rows : List TweetRow) : Prop :=
  List.Sorted
    (fun a b : TweetRow =>
      if sort == "asc" then a.created_at ≤ b.created_at
      else b.created_at ≤ a.created_at)
    rows

/-- Rows sorted newest-first on `created_at`. -/
def rowsDescSorted (rows : List TweetRow) : Prop :=
  List.Sorted (fun a b : TweetRow => b.created_at ≤ a.created_at) rows

/-- A `likes` state holding two rows for the same (user, tweet) pair, as two
racing POST `/like` requests would leave behind. -/
def dupLikes : List Like := [⟨1, 1, 1⟩, ⟨2, 1, 1⟩]

/-- A `follows` state holding two rows for the same ordered
(follower, followed) pair. -/
def dupFollows : List Follow := [⟨1, 1, 2⟩, ⟨2, 1, 2⟩]

/-- A `users` state holding two rows with the same username. -/
def dupUsers : List User := [⟨1, "alice", "h1"⟩, ⟨2, "alice", "h2"⟩]

/-- A small store used to instantiate theorems: alice (1) and bob (2), one
tweet each, alice follows bob and likes bob's tweet. -/
def dbW : DB :=
  { users := [⟨1, "alice", "ha"⟩, ⟨2, "bob", "hb"⟩],
    tweets := [⟨1, "hello world", 1, 1⟩, ⟨2, "good morning", 2, 2⟩],
    likes := [⟨1, 1, 2⟩],
    follows := [⟨1, 1, 2⟩] }

/-- The store `dbW` after tweet 1's content is replaced by "edited". -/
def dbW9b : DB :=
  { dbW with tweets := [⟨1, "edited", 1, 1⟩, ⟨2, "good morning", 2, 2⟩] }

/-- A store with one registered user and no posts. -/
def dbC5 : DB :=
  { users := [⟨1, "alice", "ha"⟩], tweets := [], likes := [], follows := [] }

/-- A store with two posts at distinct times, both matching keyword "tweet". -/
def dbC6 : DB :=
  { users := [⟨1, "alice", "ha"⟩],
    tweets := [⟨1, "old tweet", 1, 1⟩, ⟨2, "new tweet", 2, 1⟩],
    likes := [], follows := [] }

/-- Six posts sharing one `created_at` value. -/
def cex7rows : List Tweet :=
  [⟨1, "p1", 5, 1⟩, ⟨2, "p2", 5, 1⟩, ⟨3, "p3", 5, 1⟩,
   ⟨4, "p4", 5, 1⟩, ⟨5, "p5", 5, 1⟩, ⟨6, "p6", 5, 1⟩]

/-- One ORDER BY result the store may return for `cex7rows`. -/
def cex7ord1 : List Tweet := cex7rows

/-- Another ORDER BY result the store may return for the same rows. -/
def cex7ord2 : List Tweet := cex7rows.reverse

/-! ### Generic lemmas about the query pipeline -/

theorem countLikeIds_outerJoin (likes : List Like) (t : Tweet) :
    countLikeIds (outerJoinRows likes t) =
      (likes.filter (fun l => l.tweet_id == t.id)).length := by
  unfold outerJoinRows countLikeIds
  split
  · next heq => simp [heq]
  · next ls heq =>
    simp [List.filter_map, Function.comp]

theorem mem_of_mem_paginate {α : Type} {a : α} {s n : Nat} {l : List α}
    (h : a ∈ paginate s n l) : a ∈ l :=
  List.Sublist.mem h ((List.take_sublist _ _).trans (List.drop_sublist _ _))

theorem orderTweets_perm (sort : String) (ts : List Tweet) :
    (orderTweets sort ts).Perm ts := by
  unfold orderTweets
  split
  · exact List.perm_insertionSort _ _
  · exact List.perm_insertionSort _ _

theorem mem_agg_output {likes : List Like} {ts : List Tweet} {s n : Nat}
    {sort : String} {r : TweetRow}
    (h : r ∈ paginate s n ((orderTweets sort ts).map (aggRow likes))) :
    ∃ t ∈ ts, r = aggRow likes t := by
  have hmem := mem_of_mem_paginate h
  rcases List.mem_map.mp hmem with ⟨t, ht, rfl⟩
  exact ⟨t, (orderTweets_perm sort ts).mem_iff.mp ht, rfl⟩

theorem likes_count_of_aggRow (likes : List Like) (t : Tweet) :
    (aggRow likes t).likes_count =
      (likes.filter (fun l => l.tweet_id == (aggRow likes t).id)).length := by
  simpa [aggRow] using countLikeIds_outerJoin likes t

theorem paginate_map_proj {β : Type} (f : TweetRow → β) (likes likes2 : List Like)
    (ts : List Tweet) (s n : Nat) (sort : String)
    (hf : ∀ t : Tweet, f (aggRow likes t) = f (aggRow likes2 t)) :
    (paginate s n ((orderTweets sort ts).map (aggRow likes))).map f =
      (paginate s n ((orderTweets sort ts).map (aggRow likes2))).map f := by
  unfold paginate
  rw [List.map_take, List.map_drop, List.map_map,
    List.map_take, List.map_drop, List.map_map]
  exact congrArg _ (congrArg _ (List.map_congr_left (fun t _ => hf t)))

theorem sorted_rows_of_pipeline (sort : String)
    (likes : List Like) (ts : List Tweet) (s n : Nat) :
    rowsSortedBy sort (paginate s n ((orderTweets sort ts).map (aggRow likes))) := by
  unfold rowsSortedBy
  have hsorted : List.Sorted
      (fun a b : Tweet =>
        if sort == "asc" then a.created_at ≤ b.created_at
        else b.created_at ≤ a.created_at)
      (orderTweets sort ts) := by
    unfold orderTweets
    by_cases hA : sort == "asc"
    · simp only [hA, if_true]
      simpa [ascCreated] using List.sorted_insertionSort ascCreated ts
    · simp only [hA, if_false]
      simpa [descCreated] using List.sorted_insertionSort descCreated ts
  have hmap : List.Sorted
      (fun a b : TweetRow =>
        if sort == "asc" then a.created_at ≤ b.created_at
        else b.created_at ≤ a.created_at)
      ((orderTweets sort ts).map (aggRow likes)) := by
    refine List.Pairwise.map _ (fun a b hab => ?_) hsorted
    simpa [aggRow] using hab
  exact hmap.sublist ((List.take_sublist _ _).trans (List.drop_sublist _ _))

theorem following_ids_contains_iff (db : DB) (uid x : Nat) :
    (following_ids db uid).contains x = true ↔
      ∃ f ∈ db.follows, f.follower_id = uid ∧ f.followed_id = x := by
  unfold following_ids
  simp only [List.contains, List.elem_iff, List.mem_map, List.mem_filter,
    beq_iff_eq]
  constructor
  · rintro ⟨f, ⟨hf, hfid⟩, hx⟩
    exact ⟨f, hf, hfid, hx⟩
  · rintro ⟨f, hf, hfid, hx⟩
    exact ⟨f, ⟨hf, hfid⟩, hx⟩

theorem feed_filter_eq_followedPosts (db : DB) (uid : Nat) :
    db.tweets.filter (fun t => (following_ids db uid).contains t.owner_id) =
      followedPosts db uid := by
  unfold followedPosts
  refine List.filter_congr (fun t _ => ?_)
  rw [Bool.eq_iff_iff, following_ids_contains_iff, List.any_eq_true]
  constructor
  · rintro ⟨f, hf, hfid, hx⟩
    exact ⟨f, hf, by simp [hfid, hx]⟩
  · rintro ⟨f, hf, hb⟩
    have := And.intro (beq_iff_eq.mp (Bool.and_elim_left hb))
      (beq_iff_eq.mp (Bool.and_elim_right hb))
    exact ⟨f, hf, this.1, this.2⟩

theorem get_tweets_ok_inv {db : DB} {skip limit : Int} {sort : String}
    {rows : List TweetRow} (h : get_tweets db skip limit sort = .ok rows) :
    rows = paginate skip.toNat limit.toNat
      ((orderTweets sort db.tweets).map (aggRow db.likes)) := by
  unfold get_tweets at h
  split at h
  · exact absurd h (by simp)
  · exact (Except.ok.inj h).symm

theorem get_mytweets_ok_inv {db : DB} {uid : Nat} {skip limit : Int} {sort : String}
    {rows : List TweetRow} (h : get_mytweets db uid skip limit sort = .ok rows) :
    rows = paginate skip.toNat limit.toNat
      ((orderTweets sort (db.tweets.filter (fun t => t.owner_id == uid))).map
        (aggRow db.likes)) := by
  unfold get_mytweets at h
  split at h
  · exact absurd h (by simp)
  · exact (Except.ok.inj h).symm

theorem search_tweets_ok_inv {db : DB} {kw : String} {skip limit : Int}
    {rows : List TweetRow} (h : search_tweets db kw skip limit = .ok rows) :
    rows = paginate skip.toNat limit.toNat
      ((orderTweets "desc"
          (db.tweets.filter (fun t => ilikeContains t.content kw))).map
        (aggRow db.likes)) := by
  unfold search_tweets at h
  split at h
  · exact absurd h (by simp)
  · exact (Except.ok.inj h).symm

theorem get_feed_ok_inv {db : DB} {uid : Nat} {skip limit : Int} {sort : String}
    {rows : List TweetRow} (h : get_feed db uid skip limit sort = .ok rows) :
    rows = paginate skip.toNat limit.toNat
      ((orderTweets sort
          (db.tweets.filter (fun t => (following_ids db uid).contains t.owner_id))).map
        (aggRow db.likes)) := by
  unfold get_feed at h
  split at h
  · exact absurd h (by simp)
  · exact (Except.ok.inj h).symm

theorem get_tweets_ok (db : DB) {skip limit : Int} {sort : String}
    (hs : checkSkip skip = true) (hl : checkLimit limit = true)
    (ho : checkSort sort = true) :
    get_tweets db skip limit sort = .ok (paginate skip.toNat limit.toNat
      ((orderTweets sort db.tweets).map (aggRow db.likes))) := by
  unfold get_tweets
  rw [if_neg]
  simp [hs, hl, ho]

theorem get_mytweets_ok (db : DB) (uid : Nat) {skip limit : Int} {sort : String}
    (hs : checkSkip skip = true) (hl : checkLimit limit = true)
    (ho : checkSort sort = true) :
    get_mytweets db uid skip limit sort = .ok (paginate skip.toNat limit.toNat
      ((orderTweets sort (db.tweets.filter (fun t => t.owner_id == uid))).map
        (aggRow db.likes))) := by
  unfold get_mytweets
  rw [if_neg]
  simp [hs, hl, ho]

theorem search_tweets_ok (db : DB) {kw : String} {skip limit : Int}
    (hk : checkKeyword kw = true) (hs : checkSkip skip = true)
    (hl : checkLimit limit = true) :
    search_tweets db kw skip limit = .ok (paginate skip.toNat limit.toNat
      ((orderTweets "desc"
          (db.tweets.filter (fun t => ilikeContains t.content kw))).map
        (aggRow db.likes))) := by
  unfold search_tweets
  rw [if_neg]
  simp [hk, hs, hl]

theorem get_feed_ok (db : DB) (uid : Nat) {skip limit : Int} {sort : String}
    (hs : checkSkip skip = true) (hl : checkLimit limit = true)
    (ho : checkSort sort = true) :
    get_feed db uid skip limit sort = .ok (paginate skip.toNat limit.toNat
      ((orderTweets sort
          (db.tweets.filter (fun t => (following_ids db uid).contains t.owner_id))).map
        (aggRow db.likes))) := by
  unfold get_feed
  rw [if_neg]
  simp [hs, hl, ho]

/-- Two lists that are permutations of each other, both sorted under a
relation that is antisymmetric down to a key, and whose keys are
duplicate-free, are equal. -/
theorem sorted_perm_eq_of_nodup_keys {α : Type} (key : α → Nat) (le : α → α → Prop)
    (hkey : ∀ a b, le a b → le b a → key a = key b) :
    ∀ l1 l2 : List α, l1.Perm l2 → List.Sorted le l1 → List.Sorted le l2 →
      (l1.map key).Nodup → l1 = l2
  | [], l2, hp, _, _, _ => (hp.symm.eq_nil).symm
  | a :: t1, [], hp, _, _, _ => absurd hp.eq_nil (by simp)
  | a :: t1, b :: t2, hp, h1, h2, hnd => by
    have hnd2 : (∀ x ∈ t1, ¬ key x = key a) ∧ (t1.map key).Nodup := by
      simpa using hnd
    have hab : a = b := by
      by_contra hne
      have ha2 : a ∈ t2 := by
        rcases List.mem_cons.mp (hp.mem_iff.mp (List.mem_cons_self a t1)) with h | h
        · exact absurd h hne
        · exact h
      have hb1 : b ∈ t1 := by
        rcases List.mem_cons.mp (hp.symm.mem_iff.mp (List.mem_cons_self b t2)) with h | h
        · exact absurd h.symm hne
        · exact h
      have hba : le b a := List.rel_of_sorted_cons h2 a ha2
      have hab2 : le a b := List.rel_of_sorted_cons h1 b hb1
      have hk : key a = key b := hkey a b hab2 hba
      exact hnd2.1 b hb1 hk.symm
    subst hab
    have ht : t1 = t2 :=
      sorted_perm_eq_of_nodup_keys key le hkey t1 t2 hp.cons_inv h1.of_cons h2.of_cons hnd2.2
    rw [ht]

/-- Specialisation: the `ORDER BY created_at` contract pins the result down
uniquely when all `created_at` values are distinct. -/
theorem isOrderedBy_unique {sort : String} {rows l1 l2 : List Tweet}
    (hnd : (rows.map Tweet.created_at).Nodup)
    (h1 : IsOrderedBy sort rows l1) (h2 : IsOrderedBy sort rows l2) : l1 = l2 := by
  rcases h1 with ⟨hp1, hs1⟩
  rcases h2 with ⟨hp2, hs2⟩
  refine sorted_perm_eq_of_nodup_keys Tweet.created_at _
    (fun a b hab hba => ?_) l1 l2 (hp1.trans hp2.symm) hs1 hs2 ?_
  · by_cases h : sort == "asc"
    · simp only [h, if_true] at hab hba
      exact Nat.le_antisymm hab hba
    · simp only [h, if_false] at hab hba
      exact Nat.le_antisymm hba hab
  · exact ((hp1.map Tweet.created_at).nodup_iff).mpr hnd

/-! ### Claim theorems -/

/-- C3: the claim says all three uniqueness invariants (username, like pair,
follow pair) are enforced by uniqueness constraints in the store schema
itself.  The declared schema (`models.py`) does enforce username uniqueness
and follow-pair uniqueness — it rejects the duplicate states — but the
`likes` table declares no constraint over `(user_id, tweet_id)`, so the store
schema admits a state with a duplicate like pair.  The spec requires the
constraint, so this is a bug in `models.py`. -/
theorem C3_like_pair_constraint_missing :
    likesSchemaAccepts dupLikes ∧ ¬ likePairUnique dupLikes ∧
    ¬ followsSchemaAccepts dupFollows ∧ ¬ usersSchemaAccepts dupUsers := by
  refine ⟨by decide, by decide, by decide, by decide⟩

/-- C4: for both update and delete of a post, a missing post id yields 404
(NotFound) for every actor and leaves the store unchanged; 403 (Forbidden)
arises exactly when the post exists and the actor is not its owner — so the
existence check precedes the ownership check. -/
theorem C4_existence_before_ownership (db : DB) (tid uid : Nat) (c : String) :
    (db.tweets.find? (fun t => t.id == tid) = none →
      update_tweet db tid uid c = (db, .error ⟨404, "Tweet not found"⟩) ∧
      delete_tweet db tid uid = (db, .error ⟨404, "Tweet not found"⟩)) ∧
    (∀ t, db.tweets.find? (fun x => x.id == tid) = some t → t.owner_id ≠ uid →
      update_tweet db tid uid c =
        (db, .error ⟨403, "Not authorized to update this tweet"⟩) ∧
      delete_tweet db tid uid =
        (db, .error ⟨403, "Not authorized to delete this tweet"⟩)) ∧
    (∀ e, (update_tweet db tid uid c).2 = .error e → e.status_code = 403 →
      ∃ t, db.tweets.find? (fun x => x.id == tid) = some t ∧ t.owner_id ≠ uid) ∧
    (∀ e, (delete_tweet db tid uid).2 = .error e → e.status_code = 403 →
      ∃ t, db.tweets.find? (fun x => x.id == tid) = some t ∧ t.owner_id ≠ uid) := by
  refine ⟨fun h => ⟨?_, ?_⟩, fun t ht hne => ⟨?_, ?_⟩, fun e he h403 => ?_, fun e he h403 => ?_⟩
  · simp [update_tweet, h]
  · simp [delete_tweet, h]
  · simp [update_tweet, ht, hne]
  · simp [delete_tweet, ht, hne]
  · unfold update_tweet at he
    split at he
    · next heq =>
      have he2 := Except.error.inj he
      rw [← he2] at h403
      exact absurd h403 (by decide)
    · next t heq =>
      split at he
      · next ho => exact ⟨t, heq, ho⟩
      · next ho => exact absurd he (by simp)
  · unfold delete_tweet at he
    split at he
    · next heq =>
      have he2 := Except.error.inj he
      rw [← he2] at h403
      exact absurd h403 (by decide)
    · next t heq =>
      split at he
      · next ho => exact ⟨t, heq, ho⟩
      · next ho => exact absurd he (by simp)

/-- C4 witness: a non-owner (user 2) targeting nonexistent post 99 in `dbW`
sees 404 on both update and delete, with the store untouched. -/
theorem C4_witness :
    update_tweet dbW 99 2 "x" = (dbW, .error ⟨404, "Tweet not found"⟩) ∧
    delete_tweet dbW 99 2 = (dbW, .error ⟨404, "Tweet not found"⟩) :=
  (C4_existence_before_ownership dbW 99 2 "x").1 (by decide)

/-- C5 counterexample: the claim says a create request with empty content
fails and stores nothing, but `schemas.TweetCreate` declares `content` as a
plain `str`, so `create_tweet` accepts the empty string, stores the post and
returns it. -/
theorem C5_counterexample :
    (create_tweet dbC5 1 "" 1 1).2 = .ok ⟨1, "", 1, 1, 0⟩ ∧
    (create_tweet dbC5 1 "" 1 1).1.tweets = [⟨1, "", 1, 1⟩] := by
  refine ⟨by decide, by decide⟩

/-- C5 amended: create accepts every content string, including the empty
string; it appends a post owned by the authenticated identity with the given
content and returns that post with like-count 0. -/
theorem C5_create_any_content (db : DB) (uid : Nat) (content : String)
    (newId now : Nat) :
    create_tweet db uid content newId now =
      ({ db with tweets := db.tweets ++ [⟨newId, content, now, uid⟩] },
        .ok ⟨newId, content, uid, now, 0⟩) := by
  unfold create_tweet tweetCreateOk tweetResponseOfTweet
  simp

/-- C9: a successful update replaces only the target post's content: the
users, likes and follows tables are untouched, every post keeps its id,
owner and `created_at` (so the `created_at` ordering of the table is
preserved), every other post is unchanged, and the response carries the new
content. -/
theorem C9_update_frame (db db2 : DB) (tid uid : Nat) (c : String) (r : TweetRow)
    (h : update_tweet db tid uid c = (db2, .ok r)) :
    db2.users = db.users ∧ db2.likes = db.likes ∧ db2.follows = db.follows ∧
    db2.tweets = db.tweets.map
      (fun x => if x.id == tid then { x with content := c } else x) ∧
    db2.tweets.map (fun t => (t.id, t.owner_id, t.created_at)) =
      db.tweets.map (fun t => (t.id, t.owner_id, t.created_at)) ∧
    (∀ t ∈ db.tweets, t.id ≠ tid → t ∈ db2.tweets) ∧
    r.content = c := by
  unfold update_tweet at h
  split at h
  · exact absurd h (by simp)
  · next t heq =>
    split at h
    · exact absurd h (by simp)
    · next ho =>
      rw [Prod.mk.injEq] at h
      obtain ⟨hdb2, hr⟩ := h
      have hr2 := Except.ok.inj hr
      subst hdb2
      refine ⟨rfl, rfl, rfl, rfl, ?_, ?_, ?_⟩
      · rw [List.map_map]
        refine List.map_congr_left (fun x _ => ?_)
        by_cases hx : x.id == tid
        · simp [Function.comp, hx]
        · simp [Function.comp, hx]
      · intro x hx hne
        refine List.mem_map.mpr ⟨x, hx, ?_⟩
        simp [hne]
      · rw [← hr2]
        rfl

/-- C9 witness: alice edits her own tweet 1 in `dbW`; the stored table is the
content-only rewrite of the old table. -/
theorem C9_witness :
    dbW9b.tweets = dbW.tweets.map
      (fun x => if x.id == 1 then { x with content := "edited" } else x) :=
  (C9_update_frame dbW dbW9b 1 1 "edited" ⟨1, "edited", 1, 1, 0⟩ (by decide)).2.2.2.1

/-- When like pairs are duplicate-free, the list left after removing the
first (user, tweet) match contains no further match. -/
theorem removeFirst_like_none (uid tid : Nat) :
    ∀ likes : List Like, likePairUnique likes →
      ∀ x ∈ removeFirst (fun l => l.user_id == uid && l.tweet_id == tid) likes,
        (x.user_id == uid && x.tweet_id == tid) = false := by
  intro likes
  induction likes with
  | nil =>
    intro _ x hx
    simp [removeFirst] at hx
  | cons a l ih =>
    intro hnd x hx
    have hnd2 : (∀ y ∈ l, ¬((y.user_id, y.tweet_id) = (a.user_id, a.tweet_id))) ∧
        likePairUnique l := by
      simpa [likePairUnique] using hnd
    unfold removeFirst at hx
    by_cases hpa : (a.user_id == uid && a.tweet_id == tid) = true
    · rw [if_pos hpa] at hx
      have hau : a.user_id = uid := beq_iff_eq.mp (Bool.and_elim_left hpa)
      have hat : a.tweet_id = tid := beq_iff_eq.mp (Bool.and_elim_right hpa)
      cases hpx : (x.user_id == uid && x.tweet_id == tid) with
      | false => rfl
      | true =>
        have hxu : x.user_id = uid := beq_iff_eq.mp (Bool.and_elim_left hpx)
        have hxt : x.tweet_id = tid := beq_iff_eq.mp (Bool.and_elim_right hpx)
        exact absurd (by rw [hxu, hxt, hau, hat]) (hnd2.1 x hx)
    · rw [if_neg hpa] at hx
      rcases List.mem_cons.mp hx with rfl | hxl
      · exact Bool.eq_false_iff.mpr hpa
      · exact ih hnd2.2 x hxl

/-- C8: the negative laws, each leaving the store unchanged: liking a missing
post or an already-liked post fails (404 / 400-AlreadyExists), a second
unlike of the same pair fails 404, self-follow fails 400-InvalidRequest,
following a missing account fails 404, and re-following an existing edge
fails 400-AlreadyExists — in every case the returned store is the input
store. -/
theorem C8_negative_laws (db : DB) (uid tid target newId : Nat) :
    ((∀ t ∈ db.tweets, t.id ≠ tid) →
      like_tweet db uid tid newId = (db, .error ⟨404, "Tweet not found"⟩)) ∧
    ((∃ t ∈ db.tweets, t.id = tid) →
      (∃ l ∈ db.likes, l.user_id = uid ∧ l.tweet_id = tid) →
      like_tweet db uid tid newId =
        (db, .error ⟨400, "You already liked this tweet"⟩)) ∧
    ((∀ l ∈ db.likes, ¬(l.user_id = uid ∧ l.tweet_id = tid)) →
      unlike_tweet db uid tid = (db, .error ⟨404, "Like not found"⟩)) ∧
    (likePairUnique db.likes →
      ∀ db2 m, unlike_tweet db uid tid = (db2, .ok m) →
        unlike_tweet db2 uid tid = (db2, .error ⟨404, "Like not found"⟩)) ∧
    (uid = target →
      follow_user db uid target newId =
        (db, .error ⟨400, "You cannot follow yourself"⟩)) ∧
    (uid ≠ target → (∀ u ∈ db.users, u.id ≠ target) →
      follow_user db uid target newId =
        (db, .error ⟨404, "User to follow not found"⟩)) ∧
    (uid ≠ target → (∃ u ∈ db.users, u.id = target) →
      (∃ f ∈ db.follows, f.follower_id = uid ∧ f.followed_id = target) →
      follow_user db uid target newId =
        (db, .error ⟨400, "You are already following this user"⟩)) := by
  refine ⟨?_, ?_, ?_, ?_, ?_, ?_, ?_⟩
  · intro hno
    have hf : db.tweets.find? (fun t => t.id == tid) = none :=
      List.find?_eq_none.mpr (fun t ht => by simpa using hno t ht)
    simp [like_tweet, hf]
  · intro hex hlk
    have hf : (db.tweets.find? (fun t => t.id == tid)).isSome := by
      refine List.find?_isSome.mpr ?_
      rcases hex with ⟨t, ht, hid⟩
      exact ⟨t, ht, by simpa using hid⟩
    obtain ⟨t, ht⟩ := Option.isSome_iff_exists.mp hf
    have hl : (db.likes.find? (fun l => l.user_id == uid && l.tweet_id == tid)).isSome := by
      refine List.find?_isSome.mpr ?_
      rcases hlk with ⟨l, hli, hu, hw⟩
      exact ⟨l, hli, by simp [hu, hw]⟩
    obtain ⟨l, hl2⟩ := Option.isSome_iff_exists.mp hl
    simp [like_tweet, ht, hl2]
  · intro hno
    have hf : db.likes.find? (fun l => l.user_id == uid && l.tweet_id == tid) = none := by
      refine List.find?_eq_none.mpr (fun l hli => ?_)
      have := hno l hli
      simp only [Bool.and_eq_true, beq_iff_eq]
      exact fun hc => this hc
    simp [unlike_tweet, hf]
  · intro hnd db2 m h
    unfold unlike_tweet at h
    split at h
    · exact absurd h (by simp)
    · next l heq =>
      rw [Prod.mk.injEq] at h
      obtain ⟨hdb2, _⟩ := h
      subst hdb2
      have hnone : (removeFirst (fun l => l.user_id == uid && l.tweet_id == tid)
          db.likes).find? (fun l => l.user_id == uid && l.tweet_id == tid) = none :=
        List.find?_eq_none.mpr (fun x hx => by
          simp [removeFirst_like_none uid tid db.likes hnd x hx])
      simp [unlike_tweet, hnone]
  · intro hself
    simp [follow_user, hself]
  · intro hne hno
    have hf : db.users.find? (fun u => u.id == target) = none :=
      List.find?_eq_none.mpr (fun u hu => by simpa using hno u hu)
    simp [follow_user, hne, hf]
  · intro hne hex hed
    have hf : (db.users.find? (fun u => u.id == target)).isSome := by
      refine List.find?_isSome.mpr ?_
      rcases hex with ⟨u, hu, hid⟩
      exact ⟨u, hu, by simpa using hid⟩
    obtain ⟨u, hu2⟩ := Option.isSome_iff_exists.mp hf
    have he : (db.follows.find? (fun f =>
        f.follower_id == uid && f.followed_id == target)).isSome := by
      refine List.find?_isSome.mpr ?_
      rcases hed with ⟨f, hfi, h1, h2⟩
      exact ⟨f, hfi, by simp [h1, h2]⟩
    obtain ⟨f, hf2⟩ := Option.isSome_iff_exists.mp he
    simp [follow_user, hne, hu2, hf2]

/-- C8 witness: in `dbW` alice (1) has already liked bob's tweet 2, so a
second like fails with the duplicate error and the store is unchanged. -/
theorem C8_witness :
    like_tweet dbW 1 2 9 = (dbW, .error ⟨400, "You already liked this tweet"⟩) :=
  (C8_negative_laws dbW 1 2 0 9).2.1 (by decide) (by decide)

theorem orderTweets_nil (sort : String) : orderTweets sort [] = [] := by
  unfold orderTweets
  split <;> rfl

/-- C1: for every viewer and valid (skip, limit, sort), the personalized feed
is the ordered, paginated, like-annotated image of exactly the posts whose
owner lies in the set of accounts the viewer currently follows; every
returned row's owner is followed by the viewer; and a viewer with no follow
edges receives the empty sequence, not an error. -/
theorem C1_feed_exactly_followed (db : DB) (uid : Nat) (skip limit : Int)
    (sort : String) (hs : checkSkip skip = true) (hl : checkLimit limit = true)
    (ho : checkSort sort = true) :
    get_feed db uid skip limit sort = .ok (paginate skip.toNat limit.toNat
      ((orderTweets sort (followedPosts db uid)).map (aggRow db.likes))) ∧
    (∀ rows, get_feed db uid skip limit sort = .ok rows →
      ∀ r ∈ rows, ∃ f ∈ db.follows,
        f.follower_id = uid ∧ f.followed_id = r.owner_id) ∧
    ((∀ f ∈ db.follows, f.follower_id ≠ uid) →
      get_feed db uid skip limit sort = .ok []) := by
  have hok := get_feed_ok db uid hs hl ho
  rw [feed_filter_eq_followedPosts] at hok
  refine ⟨hok, ?_, ?_⟩
  · intro rows hrows r hr
    have hrw : rows = paginate skip.toNat limit.toNat
        ((orderTweets sort (followedPosts db uid)).map (aggRow db.likes)) :=
      Except.ok.inj (hrows.symm.trans hok)
    rw [hrw] at hr
    obtain ⟨t, ht, rfl⟩ := mem_agg_output hr
    obtain ⟨htw, hany⟩ := List.mem_filter.mp ht
    obtain ⟨f, hf, hb⟩ := List.any_eq_true.mp hany
    exact ⟨f, hf, beq_iff_eq.mp (Bool.and_elim_left hb),
      beq_iff_eq.mp (Bool.and_elim_right hb)⟩
  · intro hnone
    have hfp : followedPosts db uid = [] := by
      refine List.filter_eq_nil_iff.mpr (fun t ht => ?_)
      simp only [List.any_eq_true, not_exists]
      rintro f ⟨hf, hb⟩
      exact hnone f hf (beq_iff_eq.mp (Bool.and_elim_left hb))
    rw [hfp, orderTweets_nil] at hok
    simpa [paginate] using hok

/-- C1 witness: bob (2) follows no one in `dbW`, so a valid default query
yields an empty feed, not an error. -/
theorem C1_witness : get_feed dbW 2 0 10 "desc" = .ok [] :=
  (C1_feed_exactly_followed dbW 2 0 10 "desc" (by decide) (by decide)
    (by decide)).2.2 (by decide)

/-- C2: every row returned by any of the four read operations carries a
likes_count equal to the number of Like rows referencing that post; and which
posts appear is independent of the likes table (the left-outer aggregation
keeps zero-like posts), so such posts appear with count 0 rather than being
absent. -/
theorem C2_likes_count_exact (db : DB) (uid : Nat) (skip limit : Int)
    (sort kw : String) :
    (∀ rows, (get_tweets db skip limit sort = .ok rows ∨
        get_mytweets db uid skip limit sort = .ok rows ∨
        search_tweets db kw skip limit = .ok rows ∨
        get_feed db uid skip limit sort = .ok rows) →
      ∀ r ∈ rows, r.likes_count =
        (db.likes.filter (fun l => l.tweet_id == r.id)).length) ∧
    (∀ rows rows0,
      get_tweets db skip limit sort = .ok rows →
      get_tweets { db with likes := [] } skip limit sort = .ok rows0 →
      rows.map projRow = rows0.map projRow ∧ ∀ r ∈ rows0, r.likes_count = 0) := by
  constructor
  · intro rows hrows r hr
    rcases hrows with h | h | h | h
    · rw [get_tweets_ok_inv h] at hr
      obtain ⟨t, _, rfl⟩ := mem_agg_output hr
      exact likes_count_of_aggRow db.likes t
    · rw [get_mytweets_ok_inv h] at hr
      obtain ⟨t, _, rfl⟩ := mem_agg_output hr
      exact likes_count_of_aggRow db.likes t
    · rw [search_tweets_ok_inv h] at hr
      obtain ⟨t, _, rfl⟩ := mem_agg_output hr
      exact likes_count_of_aggRow db.likes t
    · rw [get_feed_ok_inv h] at hr
      obtain ⟨t, _, rfl⟩ := mem_agg_output hr
      exact likes_count_of_aggRow db.likes t
  · intro rows rows0 h h0
    have e1 := get_tweets_ok_inv h
    have e0 := get_tweets_ok_inv h0
    dsimp only at e0
    constructor
    · rw [e1, e0]
      exact paginate_map_proj projRow db.likes [] db.tweets _ _ sort (fun t => rfl)
    · intro r hr
      rw [e0] at hr
      obtain ⟨t, _, rfl⟩ := mem_agg_output hr
      simpa using likes_count_of_aggRow ([] : List Like) t

/-- C2 witness: in `dbW`, the global timeline reports bob's tweet 2 with
likes_count 1, the number of Like rows referencing it. -/
theorem C2_witness :
    (⟨2, "good morning", 2, 2, 1⟩ : TweetRow).likes_count =
      (dbW.likes.filter
        (fun l => l.tweet_id == (⟨2, "good morning", 2, 2, 1⟩ : TweetRow).id)).length :=
  (C2_likes_count_exact dbW 1 0 10 "desc" "x").1
    [⟨2, "good morning", 2, 2, 1⟩, ⟨1, "hello world", 1, 1, 0⟩]
    (Or.inl (by decide)) ⟨2, "good morning", 2, 2, 1⟩ (by decide)

/-- C6 counterexample: the keyword-search handler declares no `sort`
parameter (`main.py:226-228`), so a supplied `sort=asc` is dropped at the
HTTP boundary and the result is still newest-first; the claim that each of
the four read operations accepts a sort direction applied to `created_at`
fails at search. -/
theorem C6_counterexample :
    search_tweets_http dbC6 "tweet" { sort := "asc" } =
      .ok [⟨2, "new tweet", 1, 2, 0⟩, ⟨1, "old tweet", 1, 1, 0⟩] ∧
    ¬ rowsSortedBy "asc" [⟨2, "new tweet", 1, 2, 0⟩, ⟨1, "old tweet", 1, 1, 0⟩] := by
  constructor
  · decide
  · unfold rowsSortedBy
    decide

/-- C6 amended: all four read operations validate `skip ≥ 0` and
`1 ≤ limit ≤ 100`, rejecting violations with the 422 validation error; the
global timeline, own timeline and feed accept `sort ∈ {asc, desc}` applied
solely to `created_at` and reject any other sort string; keyword search
exposes no sort parameter and always returns descending `created_at`
order. -/
theorem C6_pagination_and_sort (db : DB) (uid : Nat) (skip limit : Int)
    (sort kw : String) :
    ((checkSkip skip && checkLimit limit) = false →
      get_tweets db skip limit sort = .error validationError ∧
      get_mytweets db uid skip limit sort = .error validationError ∧
      get_feed db uid skip limit sort = .error validationError ∧
      search_tweets db kw skip limit = .error validationError) ∧
    (checkSort sort = false →
      get_tweets db skip limit sort = .error validationError ∧
      get_mytweets db uid skip limit sort = .error validationError ∧
      get_feed db uid skip limit sort = .error validationError) ∧
    (checkSkip skip = true → checkLimit limit = true → checkSort sort = true →
      (∃ rows, get_tweets db skip limit sort = .ok rows ∧ rowsSortedBy sort rows) ∧
      (∃ rows, get_mytweets db uid skip limit sort = .ok rows ∧
        rowsSortedBy sort rows) ∧
      (∃ rows, get_feed db uid skip limit sort = .ok rows ∧
        rowsSortedBy sort rows)) ∧
    (checkKeyword kw = true → checkSkip skip = true → checkLimit limit = true →
      ∃ rows, search_tweets db kw skip limit = .ok rows ∧
        rowsSortedBy "desc" rows) := by
  refine ⟨?_, ?_, ?_, ?_⟩
  · intro h
    rcases Bool.and_eq_false_iff.mp h with hs | hl
    · exact ⟨by simp [get_tweets, hs], by simp [get_mytweets, hs],
        by simp [get_feed, hs], by simp [search_tweets, hs]⟩
    · exact ⟨by simp [get_tweets, hl], by simp [get_mytweets, hl],
        by simp [get_feed, hl], by simp [search_tweets, hl]⟩
  · intro h
    exact ⟨by simp [get_tweets, h], by simp [get_mytweets, h],
      by simp [get_feed, h]⟩
  · intro hs hl ho
    exact ⟨⟨_, get_tweets_ok db hs hl ho, sorted_rows_of_pipeline sort _ _ _ _⟩,
      ⟨_, get_mytweets_ok db uid hs hl ho, sorted_rows_of_pipeline sort _ _ _ _⟩,
      ⟨_, get_feed_ok db uid hs hl ho, sorted_rows_of_pipeline sort _ _ _ _⟩⟩
  · intro hk hs hl
    exact ⟨_, search_tweets_ok db hk hs hl, sorted_rows_of_pipeline "desc" _ _ _ _⟩

/-- C6 witness: with valid parameters, the three sorted endpoints succeed
with ascending output on `dbW`. -/
theorem C6_witness :
    ∃ rows, get_tweets dbW 0 10 "asc" = .ok rows ∧ rowsSortedBy "asc" rows :=
  ((C6_pagination_and_sort dbW 1 0 10 "asc" "x").2.2.1
    (by decide) (by decide) (by decide)).1

/-- C10: with all optional parameters omitted, every list endpoint runs with
skip 0, limit 10 and descending `created_at` order — the search endpoint,
which exposes no sort parameter, also orders descending — so an
unparameterized call returns the first 10 rows of the descending listing:
at most the 10 newest matching posts. -/
theorem C10_defaults (db : DB) (uid : Nat) (kw : String)
    (hk : checkKeyword kw = true) :
    get_tweets_http db {} =
      .ok (((orderTweets "desc" db.tweets).map (aggRow db.likes)).take 10) ∧
    get_mytweets_http db uid {} =
      .ok (((orderTweets "desc" (db.tweets.filter
          (fun t => t.owner_id == uid))).map (aggRow db.likes)).take 10) ∧
    get_feed_http db uid {} =
      .ok (((orderTweets "desc" (db.tweets.filter
          (fun t => (following_ids db uid).contains t.owner_id))).map
          (aggRow db.likes)).take 10) ∧
    search_tweets_http db kw {} =
      .ok (((orderTweets "desc" (db.tweets.filter
          (fun t => ilikeContains t.content kw))).map (aggRow db.likes)).take 10) ∧
    (∀ rows,
      (get_tweets_http db {} = .ok rows ∨ get_mytweets_http db uid {} = .ok rows ∨
        get_feed_http db uid {} = .ok rows ∨
        search_tweets_http db kw {} = .ok rows) →
      rows.length ≤ 10 ∧ rowsSortedBy "desc" rows) := by
  have hpag : ∀ (l : List TweetRow), paginate (Int.toNat 0) (Int.toNat 10) l = l.take 10 := by
    intro l
    simp [paginate]
  have h1 : get_tweets_http db {} =
      .ok (((orderTweets "desc" db.tweets).map (aggRow db.likes)).take 10) := by
    rw [show get_tweets_http db {} = get_tweets db 0 10 "desc" from rfl,
      get_tweets_ok db (by decide) (by decide) (by decide), hpag]
  have h2 : get_mytweets_http db uid {} =
      .ok (((orderTweets "desc" (db.tweets.filter
          (fun t => t.owner_id == uid))).map (aggRow db.likes)).take 10) := by
    rw [show get_mytweets_http db uid {} = get_mytweets db uid 0 10 "desc" from rfl,
      get_mytweets_ok db uid (by decide) (by decide) (by decide), hpag]
  have h3 : get_feed_http db uid {} =
      .ok (((orderTweets "desc" (db.tweets.filter
          (fun t => (following_ids db uid).contains t.owner_id))).map
          (aggRow db.likes)).take 10) := by
    rw [show get_feed_http db uid {} = get_feed db uid 0 10 "desc" from rfl,
      get_feed_ok db uid (by decide) (by decide) (by decide), hpag]
  have h4 : search_tweets_http db kw {} =
      .ok (((orderTweets "desc" (db.tweets.filter
          (fun t => ilikeContains t.content kw))).map (aggRow db.likes)).take 10) := by
    rw [show search_tweets_http db kw {} = search_tweets db kw 0 10 from rfl,
      search_tweets_ok db hk (by decide) (by decide), hpag]
  refine ⟨h1, h2, h3, h4, ?_⟩
  have hlen : ∀ (l : List TweetRow), (l.take 10).length ≤ 10 := by
    intro l
    simp [List.length_take]
  have hsor : ∀ (likes : List Like) (ts : List Tweet),
      rowsSortedBy "desc" (((orderTweets "desc" ts).map (aggRow likes)).take 10) := by
    intro likes ts
    have := sorted_rows_of_pipeline "desc" likes ts 0 10
    simpa [paginate] using this
  intro rows hrows
  rcases hrows with h | h | h | h
  · obtain rfl := Except.ok.inj (h1.symm.trans h)
    exact ⟨hlen _, hsor _ _⟩
  · obtain rfl := Except.ok.inj (h2.symm.trans h)
    exact ⟨hlen _, hsor _ _⟩
  · obtain rfl := Except.ok.inj (h3.symm.trans h)
    exact ⟨hlen _, hsor _ _⟩
  · obtain rfl := Except.ok.inj (h4.symm.trans h)
    exact ⟨hlen _, hsor _ _⟩

/-- C10 witness: an unparameterized global timeline call on `dbW` yields the
first 10 rows of the descending listing. -/
theorem C10_witness :
    get_tweets_http dbW {} =
      .ok (((orderTweets "desc" dbW.tweets).map (aggRow dbW.likes)).take 10) :=
  (C10_defaults dbW 1 "o" (by decide)).1

/-- C7 counterexample: the query orders by `created_at` alone
(`main.py:95-100`), so with six posts sharing one `created_at` the ORDER BY
contract admits several result orders; the store may answer page 1
(skip 0, limit 5) from one admissible order and page 2 (skip 5, limit 5)
from another, and then post 1 appears on both pages — the halves are not
disjoint, so no deterministic secondary key is in effect. -/
theorem C7_counterexample :
    IsOrderedBy "desc" cex7rows cex7ord1 ∧ IsOrderedBy "desc" cex7rows cex7ord2 ∧
    (⟨1, "p1", 5, 1⟩ : Tweet) ∈ paginate 0 5 cex7ord1 ∧
    (⟨1, "p1", 5, 1⟩ : Tweet) ∈ paginate 5 5 cex7ord2 := by
  refine ⟨⟨by decide, by decide⟩, ⟨by decide, by decide⟩, by decide, by decide⟩

/-- C7 amended: over a fixed data set whose `created_at` values are pairwise
distinct, the ORDER BY contract determines the listing uniquely, and page 1
(skip 0, limit 5) followed by page 2 (skip 5, limit 5) are disjoint,
order-preserving halves whose concatenation is the first 10 rows of the
unpaginated result; with equal `created_at` values the query provides no
secondary key, so this holds only under the distinctness assumption. -/
theorem C7_pagination_stable (rows l l1 l2 : List Tweet) (sort : String)
    (hnd : (rows.map Tweet.created_at).Nodup)
    (h : IsOrderedBy sort rows l) (h1 : IsOrderedBy sort rows l1)
    (h2 : IsOrderedBy sort rows l2) :
    paginate 0 5 l1 ++ paginate 5 5 l2 = l.take 10 ∧
    (paginate 0 5 l1).Disjoint (paginate 5 5 l2) := by
  have e1 : l1 = l := isOrderedBy_unique hnd h1 h
  have e2 : l2 = l := isOrderedBy_unique hnd h2 h
  rw [e1, e2]
  have hnodup : l.Nodup := by
    have hmap : (l.map Tweet.created_at).Nodup := (h.1.map Tweet.created_at).nodup_iff.mpr hnd
    exact List.Nodup.of_map Tweet.created_at hmap
  constructor
  · show (l.drop 0).take 5 ++ (l.drop 5).take 5 = l.take 10
    rw [List.drop_zero]
    exact (List.take_add l 5 5).symm
  · intro a ha1 ha2
    have ha1' : a ∈ l.take 5 := by
      simpa [paginate] using ha1
    have ha2' : a ∈ l.drop 5 := by
      have : a ∈ (l.drop 5).take 5 := by simpa [paginate] using ha2
      exact List.Sublist.mem this (List.take_sublist _ _)
    exact List.disjoint_take_drop hnodup (le_refl 5) ha1' ha2'

/-- C7 witness: with two posts at distinct times, both pages taken from the
uniquely determined descending order compose into its first 10 rows. -/
theorem C7_witness :
    paginate 0 5 [(⟨2, "good morning", 2, 2⟩ : Tweet), ⟨1, "hello world", 1, 1⟩] ++
      paginate 5 5 [(⟨2, "good morning", 2, 2⟩ : Tweet), ⟨1, "hello world", 1, 1⟩] =
      ([(⟨2, "good morning", 2, 2⟩ : Tweet), ⟨1, "hello world", 1, 1⟩]).take 10 :=
  (C7_pagination_stable dbW.tweets
    [⟨2, "good morning", 2, 2⟩, ⟨1, "hello world", 1, 1⟩]
    [⟨2, "good morning", 2, 2⟩, ⟨1, "hello world", 1, 1⟩]
    [⟨2, "good morning", 2, 2⟩, ⟨1, "hello world", 1, 1⟩] "desc" (by decide)
    ⟨by decide, by decide⟩ ⟨by decide, by decide⟩ ⟨by decide, by decide⟩).1
